import Mathlib

/-!
Verification of the metrics acquisition pipeline of the thufir extension.

The embedding models, faithfully to the TypeScript source:
  - the JavaScript string and number primitives the code relies on
    (trim, split, parseFloat, parseInt), with NaN modelled as none;
  - ServerMetricsProvider (serverMetricsProvider.ts): getServerKey,
    startMonitoring, stopMonitoring, updateMetrics, collectMetrics,
    getMetrics, with JavaScript Map state as association lists and
    setInterval timers as explicit identifiers;
  - PrometheusClient.getAlerts (prometheusClient.ts, the version that
    imports its types from types.ts).

Rational numbers stand in for JavaScript doubles; none stands for NaN.
The concrete decimal strings exercised by the theorems are all exactly
representable, so no rounding discrepancy arises.
-/

deriving instance DecidableEq for Except

namespace Thufir

/-- Whitespace class used by the JavaScript trim and number parsing.
Covers the characters that occur in shell probe output. -/
def jsIsWhitespace (c : Char) : Bool :=
  c = ' ' || c = '\t' || c = '\n' || c = '\r'

/-- JavaScript String.prototype.trim: strip whitespace at both ends. -/
def jsTrim (s : String) : String :=
  String.mk (((s.data.dropWhile jsIsWhitespace).reverse.dropWhile jsIsWhitespace).reverse)

/-- Split a character list at every occurrence of the separator.
Always returns at least one (possibly empty) piece, like the
JavaScript String.prototype.split with a single-character separator. -/
def jsSplitAux (sep : Char) : List Char → List Char → List String
  | [], acc => [String.mk acc.reverse]
  | c :: rest, acc =>
      if c = sep then String.mk acc.reverse :: jsSplitAux sep rest []
      else jsSplitAux sep rest (c :: acc)

/-- JavaScript String.prototype.split with a one-character separator:
keeps empty pieces, and the empty string splits to one empty piece. -/
def jsSplitOn (sep : Char) (s : String) : List String :=
  jsSplitAux sep s.data []

/-- Numeric value of a digit run, most significant first. -/
def digitsVal (ds : List Char) : Nat :=
  ds.foldl (fun acc c => 10 * acc + (c.toNat - 48)) 0

/-- JavaScript parseFloat on the decimal shapes that occur in shell
probe output: skip leading whitespace, optional sign, then the longest
prefix of digits with an optional fractional part. Returns none (NaN)
when no digit is consumed. Exponent notation does not occur in the
probe outputs modelled here. -/
def jsParseFloat (s : String) : Option ℚ :=
  let cs := s.data.dropWhile jsIsWhitespace
  let (neg, cs) :=
    match cs with
    | c :: rest => if c = '-' then (true, rest) else if c = '+' then (false, rest) else (false, cs)
    | [] => (false, cs)
  let intPart := cs.takeWhile Char.isDigit
  let cs := cs.dropWhile Char.isDigit
  let fracPart :=
    match cs with
    | c :: rest => if c = '.' then rest.takeWhile Char.isDigit else []
    | [] => []
  if intPart.isEmpty && fracPart.isEmpty then none
  else
    let mant : ℤ := (digitsVal intPart * 10 ^ fracPart.length + digitsVal fracPart : ℕ)
    some (mkRat (if neg then -mant else mant) (10 ^ fracPart.length))

/-- JavaScript parseInt (decimal): skip leading whitespace, optional
sign, then the longest prefix of digits. Returns none (NaN) when no
digit is consumed. -/
def jsParseInt (s : String) : Option ℤ :=
  let cs := s.data.dropWhile jsIsWhitespace
  let (neg, cs) :=
    match cs with
    | c :: rest => if c = '-' then (true, rest) else if c = '+' then (false, rest) else (false, cs)
    | [] => (false, cs)
  let ds := cs.takeWhile Char.isDigit
  if ds.isEmpty then none
  else some (if neg then -(digitsVal ds : ℤ) else (digitsVal ds : ℤ))

/-- parseInt or parseFloat applied to a possibly undefined value:
applying either to undefined yields NaN in JavaScript. -/
def jsParseIntOpt : Option String → Option ℤ
  | none => none
  | some s => jsParseInt s

/-- parseFloat applied to a possibly undefined value. -/
def jsParseFloatOpt : Option String → Option ℚ
  | none => none
  | some s => jsParseFloat s

/-- The ServerMetrics interface of serverMetricsProvider.ts. Numeric
fields are JavaScript numbers, so each is Option rational with none
standing for NaN; prometheusMetrics is the optional string-to-number
map, absent (none) unless assigned. -/
structure ServerMetrics where
  cpu : Option ℚ
  memUsed : Option ℤ
  memTotal : Option ℤ
  diskUsed : Option ℚ
  diskTotal : Option ℚ
  uptime : Option ℚ
  loadAverage : List (Option ℚ)
  prometheusMetrics : Option (List (String × Option ℚ))
  deriving DecidableEq, Repr

/-- The parse block at the end of collectMetrics, applied to the five
trimmed probe outputs (results[0..4]). Mirrors:
  const [memUsed, memTotal] = memory.split(32);
  const [diskUsed, diskTotal] = disk.split(32);
  const loadAvgValues = loadAvg.split(44).map(v => parseFloat(v.trim()));
with array destructuring of a too-short array giving undefined, and
parseFloat / parseInt of a non-numeric or undefined value giving NaN.
Every operation in the block is total on defined strings, so the
surrounding try/catch never fires for shape errors: the block always
resolves. -/
def parseCollected (cpu memory disk uptime loadAvg : String) : ServerMetrics :=
  let memParts := jsSplitOn ' ' memory
  let diskParts := jsSplitOn ' ' disk
  { cpu := jsParseFloat cpu
    memUsed := jsParseIntOpt (memParts.get? 0)
    memTotal := jsParseIntOpt (memParts.get? 1)
    diskUsed := jsParseFloatOpt (diskParts.get? 0)
    diskTotal := jsParseFloatOpt (diskParts.get? 1)
    uptime := jsParseFloat uptime
    loadAverage := (jsSplitOn ',' loadAvg).map (fun v => jsParseFloat (jsTrim v))
    prometheusMetrics := none }

/-- ServerMetricsProvider.collectMetrics. The five shell probes run
strictly in order; each argument is the outcome of one exec: an error
on the stream or a captured raw output. The first exec failure rejects
the whole collection; otherwise each raw output is trimmed
(results[index] = data.trim()) and the final parse block runs. -/
def collectMetrics (cpu memory disk uptime loadAvg : Except String String) :
    Except String ServerMetrics :=
  match cpu with
  | .error e => .error e
  | .ok c =>
    match memory with
    | .error e => .error e
    | .ok m =>
      match disk with
      | .error e => .error e
      | .ok d =>
        match uptime with
        | .error e => .error e
        | .ok u =>
          match loadAvg with
          | .error e => .error e
          | .ok l => .ok (parseCollected (jsTrim c) (jsTrim m) (jsTrim d) (jsTrim u) (jsTrim l))

/-- Lookup in a JavaScript Map modelled as an association list with at
most one entry per key (Map.get). -/
def mapLookup : List (String × α) → String → Option α
  | [], _ => none
  | (k0, v0) :: rest, k => if k0 = k then some v0 else mapLookup rest k

/-- JavaScript Map.set: replace the value at an existing key in place,
otherwise append a new entry. -/
def mapSet : List (String × α) → String → α → List (String × α)
  | [], k, v => [(k, v)]
  | (k0, v0) :: rest, k, v =>
      if k0 = k then (k, v) :: rest else (k0, v0) :: mapSet rest k v

/-- JavaScript Map.delete: remove the entry at the key, if any. -/
def mapDelete (m : List (String × α)) (k : String) : List (String × α) :=
  m.filter (fun p => !(p.1 = k))

/-- The fields of ServerNode that the metrics provider reads. The
prometheusConfig is reduced to its presence, which is all the provider
branches on. -/
structure ServerNode where
  label : String
  host : String
  username : String
  port : ℕ
  hasPrometheusConfig : Bool
  isLocalOnly : Bool
  deriving DecidableEq, Repr

/-- ServerMetricsProvider.getServerKey:
return a string made of the label, the username and the host. -/
def getServerKey (node : ServerNode) : String :=
  node.label ++ " (" ++ node.username ++ "@" ++ node.host ++ ")"

/-- ServerExplorerProvider.getServerKey (serverExplorer.ts):
username at host, colon, port. -/
def explorerServerKey (node : ServerNode) : String :=
  node.username ++ "@" ++ node.host ++ ":" ++ toString node.port

/-- The mutable state of a ServerMetricsProvider instance. The four
Maps are association lists keyed by getServerKey. Connections are
identified by numeric handles; endedConnections records every handle
on which end() was called. Each setInterval call allocates the next
timer identifier and registers it, with the key it polls, in
activeTimers; clearInterval removes it. events counts the change
notifications fired on the onDidChangeTreeData emitter. -/
structure ProviderState where
  serverConnections : List (String × ℕ)
  serverMetrics : List (String × ServerMetrics)
  updateIntervals : List (String × ℕ)
  prometheusClients : List (String × Unit)
  activeTimers : List (ℕ × String)
  nextTimerId : ℕ
  endedConnections : List ℕ
  events : ℕ
  deriving DecidableEq, Repr

/-- A provider with no servers monitored. -/
def emptyProvider : ProviderState :=
  { serverConnections := [], serverMetrics := [], updateIntervals := []
    prometheusClients := [], activeTimers := [], nextTimerId := 0
    endedConnections := [], events := 0 }

/-- ServerMetricsProvider.startMonitoring: store the connection, create
a Prometheus client when the node has a prometheusConfig, then schedule
a recurring poll and store its handle under the key. The immediate
updateMetrics call is asynchronous and mutates no provider state before
its first await, so its eventual effect is the separate updateMetrics
transition. The source checks nothing before scheduling: a fresh
interval is always created and its handle overwrites any existing
binding for the key. -/
def startMonitoring (st : ProviderState) (connection : ℕ) (node : ServerNode) :
    ProviderState :=
  let key := getServerKey node
  let clients :=
    if node.hasPrometheusConfig then mapSet st.prometheusClients key ()
    else st.prometheusClients
  let tid := st.nextTimerId
  { st with
    serverConnections := mapSet st.serverConnections key connection
    prometheusClients := clients
    activeTimers := st.activeTimers ++ [(tid, key)]
    updateIntervals := mapSet st.updateIntervals key tid
    nextTimerId := tid + 1 }

/-- ServerMetricsProvider.stopMonitoring: clear and forget the interval
bound to the key if any, end and forget the connection if any, drop the
Prometheus client and the stored record, and fire a change
notification. -/
def stopMonitoring (st : ProviderState) (node : ServerNode) : ProviderState :=
  let key := getServerKey node
  let st1 :=
    match mapLookup st.updateIntervals key with
    | some tid =>
        { st with
          activeTimers := st.activeTimers.filter (fun p => !(p.1 = tid))
          updateIntervals := mapDelete st.updateIntervals key }
    | none => st
  let st2 :=
    match mapLookup st1.serverConnections key with
    | some c =>
        { st1 with
          endedConnections := st1.endedConnections ++ [c]
          serverConnections := mapDelete st1.serverConnections key }
    | none => st1
  { st2 with
    prometheusClients := mapDelete st2.prometheusClients key
    serverMetrics := mapDelete st2.serverMetrics key
    events := st2.events + 1 }

/-- ServerMetricsProvider.getMetrics: snapshot read of the stored
record for the key, never triggering a fetch. -/
def getMetrics (st : ProviderState) (node : ServerNode) : Option ServerMetrics :=
  mapLookup st.serverMetrics (getServerKey node)

/-- The three fixed Prometheus queries issued inside updateMetrics, by
the name under which each result is stored. -/
def promQueryNames : List String :=
  ["node_cpu_seconds_total", "node_memory_MemAvailable_bytes", "node_filesystem_avail_bytes"]

/-- The for-loop over the Prometheus queries inside updateMetrics. Each
element pairs a query name with the outcome of its queryInstant call: a
thrown error, or the result list reduced to the value strings of its
entries. The loop runs sequentially and the first throw aborts the
whole try block, in which case no map is assigned at all; otherwise the
map holds, in order, one parsed entry per query whose result list was
nonempty. -/
def runPromQueries : List (String × Except String (List String)) →
    Except String (List (String × Option ℚ))
  | [] => .ok []
  | (_, .error e) :: _ => .error e
  | (name, .ok samples) :: rest =>
      match runPromQueries rest with
      | .error e => .error e
      | .ok acc =>
          .ok (if samples.isEmpty then acc else (name, jsParseFloat (samples.headD "")) :: acc)

/-- ServerMetricsProvider.updateMetrics, at the granularity of one poll
cycle whose awaited outcomes are given: collectRes is what
collectMetrics settled to, and promRes lists, per fixed query, what
queryInstant settled to (read only when a Prometheus client is stored
for the key). With no stored connection the method returns at once.
A collect failure is only logged. On success, when a client is stored,
a throwing query loop is only logged and leaves the record as collected;
a successful loop assigns the prometheusMetrics map. The resulting
record is then stored unconditionally over any previous one, and a
change notification fires. -/
def updateMetrics (st : ProviderState) (node : ServerNode)
    (collectRes : Except String ServerMetrics)
    (promRes : List (Except String (List String))) : ProviderState :=
  let key := getServerKey node
  match mapLookup st.serverConnections key with
  | none => st
  | some _ =>
    match collectRes with
    | .error _ => st
    | .ok metrics =>
      let merged :=
        match mapLookup st.prometheusClients key with
        | none => metrics
        | some _ =>
          match runPromQueries (promQueryNames.zip promRes) with
          | .error _ => metrics
          | .ok pm => { metrics with prometheusMetrics := some pm }
      { st with
        serverMetrics := mapSet st.serverMetrics key merged
        events := st.events + 1 }

/-- Alert states of the Prometheus alerts API. -/
inductive AlertState
  | firing
  | pending
  | inactive
  deriving DecidableEq, Repr

/-- A raw alert entry of the alerts endpoint response
(RawPrometheusAlert in prometheusClient.ts). The labels object always
carries an alertname; further labels are kept alongside it. -/
structure RawPrometheusAlert where
  alertname : String
  labels : List (String × String)
  annotations : List (String × String)
  state : AlertState
  activeAt : String
  value : String
  deriving DecidableEq, Repr

/-- The Alert shape of types.ts that getAlerts maps raw entries to. -/
structure Alert where
  name : String
  state : AlertState
  labels : List (String × String)
  annotations : List (String × String)
  activeAt : String
  value : String
  deriving DecidableEq, Repr

/-- The per-entry mapping inside getAlerts. -/
def toAlert (a : RawPrometheusAlert) : Alert :=
  { name := a.alertname, state := a.state, labels := a.labels
    annotations := a.annotations, activeAt := a.activeAt, value := a.value }

/-- The body of the alerts endpoint response: the top-level status
string and data.alerts. -/
structure AlertsResponse where
  status : String
  alerts : List RawPrometheusAlert
  deriving DecidableEq, Repr

/-- PrometheusClient.getAlerts (the prometheusClient.ts version whose
types come from types.ts): on a success status, keep exactly the
entries in firing state and map each to an Alert; any other status
throws. -/
def getAlerts (resp : AlertsResponse) : Except String (List Alert) :=
  if resp.status = "success" then
    .ok ((resp.alerts.filter (fun a => a.state = AlertState.firing)).map toAlert)
  else
    .error "Failed to fetch alerts"

/-- A sample shell-backed target. -/
def exNode : ServerNode :=
  { label := "web-1", host := "10.0.0.5", username := "deploy", port := 22
    hasPrometheusConfig := false, isLocalOnly := false }

/-- A provider already holding a connection for the sample target. -/
def exConnectedSt : ProviderState :=
  { emptyProvider with serverConnections := [(getServerKey exNode, 7)] }

/-- A provider holding a connection and a Prometheus client for the
sample target. -/
def exPromSt : ProviderState :=
  { emptyProvider with
    serverConnections := [(getServerKey exNode, 7)]
    prometheusClients := [(getServerKey exNode, ())] }

/-- A sample record as a poll cycle A would collect it. -/
def recA : ServerMetrics :=
  { cpu := some 10, memUsed := some 1024, memTotal := some 8192
    diskUsed := some 40, diskTotal := some 100, uptime := some 100
    loadAverage := [some 1, some 1, some 1], prometheusMetrics := none }

/-- A sample record as a later poll cycle B would collect it. -/
def recB : ServerMetrics :=
  { cpu := some 90, memUsed := some 4096, memTotal := some 8192
    diskUsed := some 41, diskTotal := some 100, uptime := some 105
    loadAverage := [some 2, some 2, some 2], prometheusMetrics := none }

theorem mapLookup_mapSet_self (m : List (String × α)) (k : String) (v : α) :
    mapLookup (mapSet m k v) k = some v := by
  induction m with
  | nil => simp [mapSet, mapLookup]
  | cons p rest ih =>
      by_cases h : p.1 = k
      · simp [mapSet, h, mapLookup]
      · simp [mapSet, h, mapLookup, ih]

theorem mapLookup_mapSet_other (m : List (String × α)) (k k2 : String) (v : α)
    (hne : k2 ≠ k) : mapLookup (mapSet m k v) k2 = mapLookup m k2 := by
  have hkk : ¬(k = k2) := fun h => hne h.symm
  induction m with
  | nil => simp [mapSet, mapLookup, hkk]
  | cons p rest ih =>
      by_cases h : p.1 = k
      · simp [mapSet, h, mapLookup, hkk]
      · simp only [mapSet, h, if_false, mapLookup]
        by_cases h2 : p.1 = k2 <;> simp [h2, ih]

theorem mapLookup_mapDelete_self (m : List (String × α)) (k : String) :
    mapLookup (mapDelete m k) k = none := by
  induction m with
  | nil => simp [mapDelete, mapLookup]
  | cons p rest ih =>
      by_cases h : p.1 = k
      · simpa [mapDelete, h] using ih
      · simpa [mapDelete, mapLookup, h] using ih

theorem mapDelete_of_lookup_none (m : List (String × α)) (k : String)
    (h : mapLookup m k = none) : mapDelete m k = m := by
  induction m with
  | nil => simp [mapDelete]
  | cons p rest ih =>
      by_cases hk : p.1 = k
      · simp [mapLookup, hk] at h
      · simp only [mapLookup, hk, if_false] at h
        simp [mapDelete, hk, List.filter] at ih ⊢
        exact ih h

/-- A fully successful collectMetrics always returns the parse of its
five trimmed outputs, whose prometheusMetrics field is absent. -/
theorem collectMetrics_ok_prometheusMetrics_none
    (o0 o1 o2 o3 o4 : Except String String) (m : ServerMetrics)
    (h : collectMetrics o0 o1 o2 o3 o4 = .ok m) : m.prometheusMetrics = none := by
  cases o0 <;> cases o1 <;> cases o2 <;> cases o3 <;> cases o4 <;>
    simp [collectMetrics] at h
  simp [← h, parseCollected]

end Thufir

open Thufir

open Thufir

open Thufir

example : jsSplitOn ' ' "2048 8192" = ["2048", "8192"] := by decide
example : jsSplitOn ' ' "" = [""] := by decide
example : jsParseFloat "0.15" = some (mkRat 15 100) := by decide
example : jsParseFloat "-2.5" = some (mkRat (-25) 10) := by decide
example : jsParseFloat "50G" = some 50 := by decide
example : jsParseFloat "" = none := by decide
example : jsParseInt "2048" = some 2048 := by decide
example : jsTrim " 0.22" = "0.22" := by decide
/-- Claim C1, refuted on the code: when the CPU probe returns an empty
string and every other probe output is well formed, collectMetrics does
not fail; it resolves with a record whose cpu field is NaN. The parse
block is total on strings because parseFloat and parseInt return NaN
rather than throwing, so the reject branch of its try/catch is
unreachable for shape errors. -/
theorem collectMetrics_empty_cpu_resolves_with_nan :
    collectMetrics (.ok "") (.ok "2048 8192") (.ok "50 100") (.ok "12345")
      (.ok "0.15, 0.22, 0.31") =
    .ok { cpu := none, memUsed := some 2048, memTotal := some 8192,
          diskUsed := some 50, diskTotal := some 100, uptime := some 12345,
          loadAverage := [some (mkRat 15 100), some (mkRat 22 100), some (mkRat 31 100)],
          prometheusMetrics := none } := by decide

/-- Claim C2, refuted on the code: startMonitoring checks nothing
before scheduling, so a second call for the same target creates a
second recurring timer for that key (two polls per tick), overwrites
the stored handle of the first, and the first timer survives even a
subsequent stopMonitoring because its handle can no longer be
reached. -/
theorem startMonitoring_not_idempotent_two_timers :
    ((startMonitoring (startMonitoring emptyProvider 7 exNode) 7 exNode).activeTimers.filter
        (fun p => p.2 = getServerKey exNode)).length = 2
    ∧ mapLookup (startMonitoring (startMonitoring emptyProvider 7 exNode) 7 exNode).updateIntervals
        (getServerKey exNode) = some 1
    ∧ (0, getServerKey exNode) ∈
        (startMonitoring (startMonitoring emptyProvider 7 exNode) 7 exNode).activeTimers
    ∧ (0, getServerKey exNode) ∈
        (stopMonitoring (startMonitoring (startMonitoring emptyProvider 7 exNode) 7 exNode)
          exNode).activeTimers := by decide

/-- Claim C3, counterexample: with a connection stored for the target,
storing cycle B and then letting the older cycle A complete stores A
over B — the later-stored result always wins, against the claim that
the record for a strictly later cycle is never overwritten. -/
theorem updateMetrics_out_of_order_overwrite_cex :
    mapLookup ((updateMetrics (updateMetrics exConnectedSt exNode (.ok recB) []) exNode
        (.ok recA) []).serverMetrics) (getServerKey exNode) = some recA
    ∧ recA ≠ recB := by decide

/-- Claim C3 as amended: updateMetrics carries no cycle ordering guard;
every successfully completed poll cycle unconditionally overwrites the
stored record, so the store reflects the most recently completed cycle
even when that cycle is the older one. -/
theorem updateMetrics_last_completion_wins
    (st : ProviderState) (node : ServerNode) (c : ℕ) (rA rB : ServerMetrics)
    (prA prB : List (Except String (List String)))
    (hconn : mapLookup st.serverConnections (getServerKey node) = some c)
    (hnoclient : mapLookup st.prometheusClients (getServerKey node) = none) :
    mapLookup ((updateMetrics (updateMetrics st node (.ok rB) prB) node
        (.ok rA) prA).serverMetrics) (getServerKey node) = some rA := by
  simp [updateMetrics, hconn, hnoclient, mapLookup_mapSet_self]

/-- Witness for the amended claim C3 at a concrete provider state. -/
theorem updateMetrics_last_completion_wins_witness :
    mapLookup ((updateMetrics (updateMetrics exConnectedSt exNode (.ok recB) []) exNode
        (.ok recA) []).serverMetrics) (getServerKey exNode) = some recA :=
  updateMetrics_last_completion_wins exConnectedSt exNode 7 recA recB [] []
    (by decide) (by decide)

/-- Claim C4: a poll cycle whose probe collection fails leaves the
provider state, and in particular the stored record read through
getMetrics, exactly as it was; the error is only logged, no change
notification fires and nothing cleared or partial is published. -/
theorem updateMetrics_probe_error_preserves_state
    (st : ProviderState) (node : ServerNode) (err : String)
    (promRes : List (Except String (List String))) :
    updateMetrics st node (.error err) promRes = st
    ∧ getMetrics (updateMetrics st node (.error err) promRes) node = getMetrics st node := by
  have h : updateMetrics st node (.error err) promRes = st := by
    cases hC : mapLookup st.serverConnections (getServerKey node) <;>
      simp [updateMetrics, hC]
  exact ⟨h, by rw [h]⟩

/-- Claim C5: when the shell probes succeed but every Prometheus query
throws, the collected record is still stored for the target with its
shell-derived fields and with the prometheusMetrics map absent, and the
cycle still completes with a change notification; the secondary-source
error never aborts the cycle. -/
theorem updateMetrics_prom_failure_keeps_primary
    (st : ProviderState) (node : ServerNode) (c : ℕ)
    (o0 o1 o2 o3 o4 : Except String String) (m : ServerMetrics) (e1 e2 e3 : String)
    (hconn : mapLookup st.serverConnections (getServerKey node) = some c)
    (hclient : mapLookup st.prometheusClients (getServerKey node) = some ())
    (hcol : collectMetrics o0 o1 o2 o3 o4 = .ok m) :
    getMetrics (updateMetrics st node (.ok m) [.error e1, .error e2, .error e3]) node = some m
    ∧ m.prometheusMetrics = none
    ∧ (updateMetrics st node (.ok m) [.error e1, .error e2, .error e3]).events
        = st.events + 1 := by
  refine ⟨?_, collectMetrics_ok_prometheusMetrics_none o0 o1 o2 o3 o4 m hcol, ?_⟩
  · simp [updateMetrics, getMetrics, hconn, hclient, promQueryNames, runPromQueries,
      mapLookup_mapSet_self]
  · simp [updateMetrics, hconn, hclient, promQueryNames, runPromQueries]

/-- Witness for claim C5: a concrete cycle on a provider holding a
connection and a Prometheus client, with all three queries throwing. -/
theorem updateMetrics_prom_failure_keeps_primary_witness :
    getMetrics (updateMetrics exPromSt exNode
        (.ok (parseCollected "42.5" "2048 8192" "50 100" "12345" "0.15, 0.22, 0.31"))
        [.error "down", .error "down", .error "down"]) exNode
      = some (parseCollected "42.5" "2048 8192" "50 100" "12345" "0.15, 0.22, 0.31")
    ∧ (parseCollected "42.5" "2048 8192" "50 100" "12345" "0.15, 0.22, 0.31").prometheusMetrics
      = none
    ∧ (updateMetrics exPromSt exNode
        (.ok (parseCollected "42.5" "2048 8192" "50 100" "12345" "0.15, 0.22, 0.31"))
        [.error "down", .error "down", .error "down"]).events = exPromSt.events + 1 :=
  updateMetrics_prom_failure_keeps_primary exPromSt exNode 7
    (.ok "42.5") (.ok "2048 8192") (.ok "50 100") (.ok "12345") (.ok "0.15, 0.22, 0.31")
    (parseCollected "42.5" "2048 8192" "50 100" "12345" "0.15, 0.22, 0.31")
    "down" "down" "down" (by decide) (by decide) (by decide)

/-- Claim C6: getAlerts surfaces exactly the firing entries of a
successful alerts response — every returned alert is in firing state,
every firing raw entry appears, and the result is precisely the firing
entries mapped to the Alert shape. -/
theorem getAlerts_only_firing (resp : AlertsResponse) (l : List Alert)
    (h : getAlerts resp = .ok l) :
    (∀ a ∈ l, a.state = AlertState.firing)
    ∧ (∀ raw ∈ resp.alerts, raw.state = AlertState.firing → toAlert raw ∈ l)
    ∧ l = (resp.alerts.filter (fun a => a.state = AlertState.firing)).map toAlert := by
  have hs : resp.status = "success" := by
    by_contra hns
    simp [getAlerts, hns] at h
  simp only [getAlerts, hs, if_pos, Except.ok.injEq] at h
  subst h
  refine ⟨?_, ?_, rfl⟩
  · intro a ha
    simp only [List.mem_map] at ha
    obtain ⟨raw, hraw, rfl⟩ := ha
    have hf := List.mem_filter.mp hraw
    simpa [toAlert] using hf.2
  · intro raw hraw hf
    exact List.mem_map_of_mem toAlert (List.mem_filter.mpr ⟨hraw, by simp [hf]⟩)

/-- A sample firing alert entry. -/
def exFiringAlert : RawPrometheusAlert :=
  { alertname := "HighCPU", labels := [("severity", "critical")]
    annotations := [("summary", "cpu is high")], state := .firing
    activeAt := "2024-01-01T00:00:00Z", value := "1" }

/-- A sample pending alert entry. -/
def exPendingAlert : RawPrometheusAlert :=
  { alertname := "DiskFilling", labels := [("severity", "warning")]
    annotations := [("summary", "disk is filling")], state := .pending
    activeAt := "2024-01-01T00:05:00Z", value := "1" }

/-- Witness for claim C6: a response holding one firing and one pending
alert yields exactly the firing one. -/
theorem getAlerts_only_firing_witness :
    getAlerts { status := "success", alerts := [exFiringAlert, exPendingAlert] }
      = .ok [toAlert exFiringAlert]
    ∧ ∀ a ∈ [toAlert exFiringAlert], a.state = AlertState.firing :=
  ⟨by decide,
    (getAlerts_only_firing { status := "success", alerts := [exFiringAlert, exPendingAlert] }
      [toAlert exFiringAlert] (by decide)).1⟩

/-- Claim C7: whenever all five probe outputs match their expected
shapes, collectMetrics resolves with every field set to the parsed
values. -/
theorem collectMetrics_valid_shapes
    (c m d u l m1 m2 d1 d2 s1 s2 s3 : String)
    (cv : ℚ) (mu mt : ℤ) (du dt uv l1 l2 l3 : ℚ)
    (hc : jsParseFloat (jsTrim c) = some cv)
    (hm : jsSplitOn ' ' (jsTrim m) = [m1, m2])
    (hmu : jsParseInt m1 = some mu) (hmt : jsParseInt m2 = some mt)
    (hd : jsSplitOn ' ' (jsTrim d) = [d1, d2])
    (hdu : jsParseFloat d1 = some du) (hdt : jsParseFloat d2 = some dt)
    (hu : jsParseFloat (jsTrim u) = some uv)
    (hl : jsSplitOn ',' (jsTrim l) = [s1, s2, s3])
    (hl1 : jsParseFloat (jsTrim s1) = some l1)
    (hl2 : jsParseFloat (jsTrim s2) = some l2)
    (hl3 : jsParseFloat (jsTrim s3) = some l3) :
    collectMetrics (.ok c) (.ok m) (.ok d) (.ok u) (.ok l) =
      .ok { cpu := some cv, memUsed := some mu, memTotal := some mt
            diskUsed := some du, diskTotal := some dt, uptime := some uv
            loadAverage := [some l1, some l2, some l3], prometheusMetrics := none } := by
  simp [collectMetrics, parseCollected, hm, hd, hl, hc, hu, hmu, hmt, hdu, hdt,
    hl1, hl2, hl3, jsParseIntOpt, jsParseFloatOpt]

/-- Witness for claim C7 at the spec scenario: memory probe output
"2048 8192" gives used 2048 and total 8192, load probe output
"0.15, 0.22, 0.31" gives that load average triple. -/
theorem collectMetrics_valid_shapes_witness :
    collectMetrics (.ok "42.5") (.ok "2048 8192") (.ok "50 100") (.ok "12345")
      (.ok "0.15, 0.22, 0.31") =
    .ok { cpu := some (mkRat 425 10), memUsed := some 2048, memTotal := some 8192
          diskUsed := some 50, diskTotal := some 100, uptime := some 12345
          loadAverage := [some (mkRat 15 100), some (mkRat 22 100), some (mkRat 31 100)]
          prometheusMetrics := none } :=
  collectMetrics_valid_shapes "42.5" "2048 8192" "50 100" "12345" "0.15, 0.22, 0.31"
    "2048" "8192" "50" "100" "0.15" " 0.22" " 0.31"
    (mkRat 425 10) 2048 8192 50 100 12345 (mkRat 15 100) (mkRat 22 100) (mkRat 31 100)
    (by decide) (by decide) (by decide) (by decide) (by decide) (by decide) (by decide)
    (by decide) (by decide) (by decide) (by decide) (by decide)

/-- Claim C8: stopMonitoring removes the interval binding and cancels
the timer it held, drops the stored record so getMetrics returns none,
and fires a change notification; on a target with no interval, no
connection, no record and no client it only fires the notification and
changes nothing else. -/
theorem stopMonitoring_spec (st : ProviderState) (node : ServerNode) :
    mapLookup (stopMonitoring st node).updateIntervals (getServerKey node) = none
    ∧ getMetrics (stopMonitoring st node) node = none
    ∧ (stopMonitoring st node).events = st.events + 1
    ∧ (∀ tid, mapLookup st.updateIntervals (getServerKey node) = some tid →
        ∀ k2, (tid, k2) ∉ (stopMonitoring st node).activeTimers)
    ∧ (mapLookup st.updateIntervals (getServerKey node) = none →
        mapLookup st.serverConnections (getServerKey node) = none →
        mapLookup st.serverMetrics (getServerKey node) = none →
        mapLookup st.prometheusClients (getServerKey node) = none →
        stopMonitoring st node = { st with events := st.events + 1 }) := by
  refine ⟨?_, ?_, ?_, ?_, ?_⟩
  · cases hI : mapLookup st.updateIntervals (getServerKey node) <;>
      cases hC : mapLookup st.serverConnections (getServerKey node) <;>
      simp [stopMonitoring, hI, hC, mapLookup_mapDelete_self]
  · cases hI : mapLookup st.updateIntervals (getServerKey node) <;>
      cases hC : mapLookup st.serverConnections (getServerKey node) <;>
      simp [stopMonitoring, getMetrics, hI, hC, mapLookup_mapDelete_self]
  · cases hI : mapLookup st.updateIntervals (getServerKey node) <;>
      cases hC : mapLookup st.serverConnections (getServerKey node) <;>
      simp [stopMonitoring, hI, hC]
  · intro tid htid k2
    cases hC : mapLookup st.serverConnections (getServerKey node) <;>
      simp [stopMonitoring, htid, hC, List.mem_filter]
  · intro hI hC hM hP
    simp [stopMonitoring, hI, hC, mapDelete_of_lookup_none _ _ hM,
      mapDelete_of_lookup_none _ _ hP]

/-- Witness for claim C8: stopping a freshly started target clears its
interval binding, its timer and its record and bumps the event count;
stopping on the empty provider only bumps the event count. -/
theorem stopMonitoring_spec_witness :
    mapLookup (stopMonitoring (startMonitoring emptyProvider 7 exNode) exNode).updateIntervals
      (getServerKey exNode) = none
    ∧ getMetrics (stopMonitoring (startMonitoring emptyProvider 7 exNode) exNode) exNode = none
    ∧ (stopMonitoring (startMonitoring emptyProvider 7 exNode) exNode).events
        = (startMonitoring emptyProvider 7 exNode).events + 1
    ∧ (0, getServerKey exNode) ∉
        (stopMonitoring (startMonitoring emptyProvider 7 exNode) exNode).activeTimers
    ∧ stopMonitoring emptyProvider exNode = { emptyProvider with events := 1 } := by
  have h := stopMonitoring_spec (startMonitoring emptyProvider 7 exNode) exNode
  have h0 := stopMonitoring_spec emptyProvider exNode
  exact ⟨h.1, h.2.1, h.2.2.1, h.2.2.2.1 0 (by decide) (getServerKey exNode),
    h0.2.2.2.2 rfl rfl rfl rfl⟩

/-- Two targets differing only in their port. -/
def nodePortA : ServerNode :=
  { label := "db", host := "10.0.0.9", username := "svc", port := 22
    hasPrometheusConfig := false, isLocalOnly := false }

/-- Same label, username and host as nodePortA, different port. -/
def nodePortB : ServerNode :=
  { label := "db", host := "10.0.0.9", username := "svc", port := 2222
    hasPrometheusConfig := false, isLocalOnly := false }

/-- Claim C9, counterexample: two shell-backed targets that differ only
in their port receive the same key from the metrics provider, so they
are not tracked independently as the claim requires. -/
theorem getServerKey_ignores_port_cex :
    nodePortA.port ≠ nodePortB.port
    ∧ getServerKey nodePortA = getServerKey nodePortB := by decide

/-- Claim C9 as amended: the metrics provider derives its per-target
key from the label, username and host alone — the port plays no part —
so two targets agreeing on those three fields share one key and hence
one monitoring state slot, whatever their ports; the explorer-level
key, by contrast, is username at host with the port appended. -/
theorem getServerKey_depends_only_on_label_user_host
    (n1 n2 : ServerNode) (hl : n1.label = n2.label) (hu : n1.username = n2.username)
    (hh : n1.host = n2.host) :
    getServerKey n1 = getServerKey n2
    ∧ (∀ st : ProviderState, getMetrics st n1 = getMetrics st n2)
    ∧ (n1.port = n2.port →
        explorerServerKey n1 = explorerServerKey n2) := by
  have hk : getServerKey n1 = getServerKey n2 := by
    simp [getServerKey, hl, hu, hh]
  refine ⟨hk, fun st => by simp [getMetrics, hk], fun hp => ?_⟩
  simp [explorerServerKey, hu, hh, hp]

/-- Witness for the amended claim C9: the two sample targets differing
only in port share the provider key and read the same stored record. -/
theorem getServerKey_depends_only_on_label_user_host_witness :
    getServerKey nodePortA = getServerKey nodePortB
    ∧ getMetrics emptyProvider nodePortA = getMetrics emptyProvider nodePortB :=
  have h := getServerKey_depends_only_on_label_user_host nodePortA nodePortB rfl rfl rfl
  ⟨h.1, h.2.1 emptyProvider⟩

/-- Claim C10: stopMonitoring ends the stored remote connection and
leaves no per-target state behind — connection, Prometheus client,
record and interval binding are all gone afterwards. -/
theorem stopMonitoring_clears_all_target_state (st : ProviderState) (node : ServerNode) :
    (∀ c, mapLookup st.serverConnections (getServerKey node) = some c →
        c ∈ (stopMonitoring st node).endedConnections)
    ∧ mapLookup (stopMonitoring st node).serverConnections (getServerKey node) = none
    ∧ mapLookup (stopMonitoring st node).prometheusClients (getServerKey node) = none
    ∧ mapLookup (stopMonitoring st node).serverMetrics (getServerKey node) = none
    ∧ mapLookup (stopMonitoring st node).updateIntervals (getServerKey node) = none := by
  refine ⟨?_, ?_, ?_, ?_, ?_⟩
  · intro c hc
    cases hI : mapLookup st.updateIntervals (getServerKey node) <;>
      simp [stopMonitoring, hI, hc]
  · cases hI : mapLookup st.updateIntervals (getServerKey node) <;>
      cases hC : mapLookup st.serverConnections (getServerKey node) <;>
      simp [stopMonitoring, hI, hC, mapLookup_mapDelete_self]
  · cases hI : mapLookup st.updateIntervals (getServerKey node) <;>
      cases hC : mapLookup st.serverConnections (getServerKey node) <;>
      simp [stopMonitoring, hI, hC, mapLookup_mapDelete_self]
  · cases hI : mapLookup st.updateIntervals (getServerKey node) <;>
      cases hC : mapLookup st.serverConnections (getServerKey node) <;>
      simp [stopMonitoring, hI, hC, mapLookup_mapDelete_self]
  · cases hI : mapLookup st.updateIntervals (getServerKey node) <;>
      cases hC : mapLookup st.serverConnections (getServerKey node) <;>
      simp [stopMonitoring, hI, hC, mapLookup_mapDelete_self]

/-- Witness for claim C10: stopping the sample connected target ends
connection 7 and clears every per-target map entry. -/
theorem stopMonitoring_clears_all_target_state_witness :
    7 ∈ (stopMonitoring exConnectedSt exNode).endedConnections
    ∧ mapLookup (stopMonitoring exConnectedSt exNode).serverConnections
        (getServerKey exNode) = none
    ∧ mapLookup (stopMonitoring exConnectedSt exNode).prometheusClients
        (getServerKey exNode) = none
    ∧ mapLookup (stopMonitoring exConnectedSt exNode).serverMetrics
        (getServerKey exNode) = none
    ∧ mapLookup (stopMonitoring exConnectedSt exNode).updateIntervals
        (getServerKey exNode) = none :=
  have h := stopMonitoring_clears_all_target_state exConnectedSt exNode
  ⟨h.1 7 (by decide), h.2.1, h.2.2.1, h.2.2.2.1, h.2.2.2.2⟩
